import Mathlib

/-!
Shallow embedding of the SQLite-backed article store of `artui/database.py`
(class `ArticleDatabase`).  Tables are lists of row structures kept in rowid
(insertion) order; ISO timestamp strings are modelled as integers, which is
faithful because uniformly formatted ISO strings compare lexicographically
exactly as the instants they denote.  `datetime.now()` is passed in
explicitly as a `now` parameter.  SQL `LEFT JOIN article_status` against the
primary-keyed status table is modelled by `List.find?` on the status list.
-/

namespace ArTui

/-- Model of a row of the `articles` table.  The `authors` and `categories`
columns are stored as serialized JSON arrays; we keep them as lists and apply
the serialization (`json_list`) where a query touches the raw column text.
`published_date`, `created_at`, `updated_at` are ISO strings modelled as
integers (days). -/
structure Article where
  id : String
  entry_id : String
  title : String
  authors : List String
  summary : String
  categories : List String
  published_date : Int
  pdf_url : String
  citation_count : Int
  created_at : Int
  updated_at : Int
  notes_file_path : Option String
deriving DecidableEq, Repr

/-- Model of a row of the `article_status` table (primary key `article_id`). -/
structure StatusRow where
  article_id : String
  is_saved : Bool
  is_viewed : Bool
  saved_at : Option Int
  viewed_at : Option Int
deriving DecidableEq, Repr

/-- Model of a row of the `tags` table (`id` is AUTOINCREMENT, `name` UNIQUE). -/
structure TagRow where
  id : Nat
  name : String
  created_at : Int
deriving DecidableEq, Repr

/-- Model of a row of the `article_tags` junction table
(primary key `(article_id, tag_id)`). -/
structure ArticleTagRow where
  article_id : String
  tag_id : Nat
  created_at : Int
deriving DecidableEq, Repr

/-- The whole store.  `next_tag_id` models the AUTOINCREMENT counter of
`tags.id`.  Note: the schema declares FOREIGN KEY constraints from
`article_status.article_id` and `article_tags.article_id` to `articles.id`,
but the code never issues `PRAGMA foreign_keys = ON`, so sqlite does not
enforce them; the model therefore does not enforce them either. -/
structure DB where
  articles : List Article
  article_status : List StatusRow
  tags : List TagRow
  article_tags : List ArticleTagRow
  next_tag_id : Nat
deriving DecidableEq, Repr

/-- A fresh store, as produced by `init_database` on an empty file. -/
def DB.empty : DB := ⟨[], [], [], [], 1⟩

/-- Model of an `arxiv.Result` as consumed by `add_article`:
`short_id` is `get_short_id()`, `authors` the list of author names. -/
structure ArxivResult where
  short_id : String
  entry_id : String
  title : String
  authors : List String
  summary : String
  categories : List String
  published : Int
  pdf_url : String
deriving DecidableEq, Repr

/-- Decidable equality for `Except` results, componentwise (used to evaluate
the fallible operations on concrete stores). -/
instance {ε α : Type} [DecidableEq ε] [DecidableEq α] : DecidableEq (Except ε α) :=
  fun x y =>
    match x, y with
    | Except.error a, Except.error b =>
        if h : a = b then isTrue (congrArg Except.error h)
        else isFalse (fun hc => h (Except.error.inj hc))
    | Except.ok a, Except.ok b =>
        if h : a = b then isTrue (congrArg Except.ok h)
        else isFalse (fun hc => h (Except.ok.inj hc))
    | Except.error _, Except.ok _ => isFalse (fun hc => Except.noConfusion hc)
    | Except.ok _, Except.error _ => isFalse (fun hc => Except.noConfusion hc)

/-- The status row joined to an article id (`LEFT JOIN article_status s ON
a.id = s.article_id`); `none` models a NULL-extended join. -/
def statusOf (db : DB) (article_id : String) : Option StatusRow :=
  db.article_status.find? (fun s => s.article_id == article_id)

/-- Truth value of `s.is_saved = 1` under the join, `NULL` counting as false
(`s.is_saved IS NULL OR s.is_saved = 0` is its negation). -/
def savedOf (db : DB) (article_id : String) : Bool :=
  ((statusOf db article_id).map (fun s => s.is_saved)).getD false

/-- Truth value of `s.is_viewed = 1` under the join, `NULL` counting as false. -/
def viewedOf (db : DB) (article_id : String) : Bool :=
  ((statusOf db article_id).map (fun s => s.is_viewed)).getD false

/-- The joined `viewed_at` column (NULL when there is no status row). -/
def viewedAtOf (db : DB) (article_id : String) : Option Int :=
  (statusOf db article_id).bind (fun s => s.viewed_at)

/-- Source `article_exists`: `SELECT 1 FROM articles WHERE id = ?`. -/
def article_exists (db : DB) (article_id : String) : Bool :=
  db.articles.any (fun a => a.id == article_id)

/-- The article row the INSERT of `add_article` stores for a fetched record. -/
def article_of_result (r : ArxivResult) (now : Int) : Article :=
  { id := r.short_id, entry_id := r.entry_id, title := r.title,
    authors := r.authors, summary := r.summary, categories := r.categories,
    published_date := r.published, pdf_url := r.pdf_url, citation_count := 0,
    created_at := now, updated_at := now, notes_file_path := none }

/-- The default status row the INSERT of `add_article` stores:
`INSERT INTO article_status (article_id, is_saved, is_viewed) VALUES (?, 0, 0)`. -/
def status_of_result (r : ArxivResult) : StatusRow :=
  { article_id := r.short_id, is_saved := false, is_viewed := false,
    saved_at := none, viewed_at := none }

/-- Source `add_article`: check existence, then INSERT the article row and
the default status row inside one `with conn:` block.  The status INSERT
raises `sqlite3.IntegrityError` when a status row for the id already exists
(a state the program can reach by `mark_article_saved` on a never-ingested
id, the foreign keys being unenforced); the `with` block then rolls back
both inserts and the exception propagates, modelled as `Except.error` with
the store unchanged. -/
def add_article (db : DB) (r : ArxivResult) (now : Int) :
    Except String (DB × Bool) :=
  if article_exists db r.short_id then Except.ok (db, false)
  else if db.article_status.any (fun s => s.article_id == r.short_id) then
    Except.error "IntegrityError"
  else
    Except.ok
      ({ db with
          articles := db.articles ++ [article_of_result r now],
          article_status := db.article_status ++ [status_of_result r] },
       true)

/-- The store after an `add_article` call, whether or not it raised: on
success the updated store, on `IntegrityError` the unchanged store (the
`with` block rolled the transaction back). -/
def add_article_store (db : DB) (r : ArxivResult) (now : Int) : DB :=
  match add_article db r now with
  | Except.ok p => p.fst
  | Except.error _ => db

/-- Source `mark_article_viewed`:
`UPDATE article_status SET is_viewed = 1, viewed_at = now
 WHERE article_id = ? AND is_viewed = 0`. -/
def mark_article_viewed (db : DB) (article_id : String) (now : Int) : DB :=
  { db with article_status := db.article_status.map (fun s =>
      if s.article_id == article_id && s.is_viewed == false
      then { s with is_viewed := true, viewed_at := some now } else s) }

/-- Source `mark_article_saved`: inserts a fresh saved status row when none
exists, returns false when already saved, otherwise flips the flag. -/
def mark_article_saved (db : DB) (article_id : String) (now : Int) : DB × Bool :=
  match statusOf db article_id with
  | none =>
      ({ db with article_status := db.article_status ++
          [{ article_id := article_id, is_saved := true, is_viewed := false,
             saved_at := some now, viewed_at := none }] }, true)
  | some row =>
      if row.is_saved then (db, false)
      else
        ({ db with article_status := db.article_status.map (fun s =>
            if s.article_id == article_id
            then { s with is_saved := true, saved_at := some now } else s) },
         true)

/-- Source `mark_article_unsaved`:
`UPDATE article_status SET is_saved = 0, saved_at = NULL
 WHERE article_id = ? AND is_saved = 1`; returns `rowcount > 0`. -/
def mark_article_unsaved (db : DB) (article_id : String) : DB × Bool :=
  ({ db with article_status := db.article_status.map (fun s =>
      if s.article_id == article_id && s.is_saved
      then { s with is_saved := false, saved_at := none } else s) },
   db.article_status.any (fun s => s.article_id == article_id && s.is_saved))

/-- Source `mark_article_unread`: symmetric to `mark_article_unsaved` for the
viewed flag. -/
def mark_article_unread (db : DB) (article_id : String) : DB × Bool :=
  ({ db with article_status := db.article_status.map (fun s =>
      if s.article_id == article_id && s.is_viewed
      then { s with is_viewed := false, viewed_at := none } else s) },
   db.article_status.any (fun s => s.article_id == article_id && s.is_viewed))

/-- Source `add_tag`: INSERT the name, on UNIQUE violation return the
existing id (get-or-create). -/
def add_tag (db : DB) (name : String) (now : Int) : DB × Nat :=
  match db.tags.find? (fun t => t.name == name) with
  | some t => (db, t.id)
  | none =>
      ({ db with
          tags := db.tags ++ [{ id := db.next_tag_id, name := name, created_at := now }],
          next_tag_id := db.next_tag_id + 1 },
       db.next_tag_id)

/-- Model of sqlite `INSERT OR REPLACE INTO article_status`: rows conflicting
on the primary key are deleted, then the new row is inserted. -/
def replace_status (db : DB) (row : StatusRow) : DB :=
  { db with article_status :=
      db.article_status.filter (fun s => !(s.article_id == row.article_id)) ++ [row] }

/-- The save-promotion statement shared by `add_article_tag` and
`set_notes_path`:
`INSERT OR REPLACE INTO article_status (article_id, is_saved, is_viewed, saved_at, viewed_at)
 VALUES (?, 1, COALESCE((SELECT is_viewed FROM article_status WHERE article_id = ?), 0),
         now, (SELECT viewed_at FROM article_status WHERE article_id = ?))`. -/
def promote_saved_status (db : DB) (article_id : String) (now : Int) : DB :=
  replace_status db
    { article_id := article_id, is_saved := true,
      is_viewed := viewedOf db article_id,
      saved_at := some now,
      viewed_at := viewedAtOf db article_id }

/-- Link-row insertion of `add_article_tag`:
`INSERT INTO article_tags (article_id, tag_id, created_at) VALUES (?, ?, ?)`. -/
def insert_link (db : DB) (l : ArticleTagRow) : DB :=
  { db with article_tags := db.article_tags ++ [l] }

/-- Source `add_article_tag`: get-or-create the tag, insert the link row
(an `IntegrityError` on the duplicate `(article_id, tag_id)` primary key
means the link existed: return false with nothing else done), then run the
save-promotion statement in the same transaction. -/
def add_article_tag (db : DB) (article_id : String) (tag_name : String) (now : Int) :
    DB × Bool :=
  let r := add_tag db tag_name now
  if r.fst.article_tags.any (fun l => l.article_id == article_id && l.tag_id == r.snd)
  then (r.fst, false)
  else
    (promote_saved_status
      (insert_link r.fst { article_id := article_id, tag_id := r.snd, created_at := now })
      article_id now, true)

/-- Source `remove_article_tag`:
`DELETE FROM article_tags WHERE article_id = ? AND tag_id =
 (SELECT id FROM tags WHERE name = ?)`; a missing tag makes the subquery
NULL, so the DELETE matches nothing.  Returns `rowcount > 0`. -/
def remove_article_tag (db : DB) (article_id : String) (tag_name : String) : DB × Bool :=
  match db.tags.find? (fun t => t.name == tag_name) with
  | none => (db, false)
  | some t =>
      let remaining := db.article_tags.filter
        (fun l => !(l.article_id == article_id && l.tag_id == t.id))
      ({ db with article_tags := remaining },
       decide (remaining.length < db.article_tags.length))

/-- Source `cleanup_orphan_tags`:
`DELETE FROM tags WHERE id NOT IN (SELECT DISTINCT tag_id FROM article_tags)`;
returns the DELETE rowcount. -/
def cleanup_orphan_tags (db : DB) : DB × Nat :=
  let keep := db.tags.filter (fun t => db.article_tags.any (fun l => l.tag_id == t.id))
  ({ db with tags := keep }, db.tags.length - keep.length)

/-- The UPDATE of `set_notes_path`:
`UPDATE articles SET notes_file_path = ? WHERE id = ?`. -/
def set_notes_column (db : DB) (article_id path : String) : DB :=
  { db with articles := db.articles.map (fun a =>
      if a.id == article_id then { a with notes_file_path := some path } else a) }

/-- Source `set_notes_path`: UPDATE the notes column on the article row, and
when the UPDATE matched a row (`rowcount > 0`) run the same save-promotion
statement as `add_article_tag`; returns `rowcount > 0`. -/
def set_notes_path (db : DB) (article_id : String) (path : String) (now : Int) :
    DB × Bool :=
  if db.articles.countP (fun a => a.id == article_id) > 0 then
    (promote_saved_status (set_notes_column db article_id path) article_id now, true)
  else (set_notes_column db article_id path, false)

/-- Serialization of a string list as `json.dumps` writes it (escape handling
elided); this is the text stored in the `authors` column, which `LIKE`
searches run against. -/
def json_list (l : List String) : String :=
  "[" ++ String.intercalate ", " (l.map (fun s => "\"" ++ s ++ "\"")) ++ "]"

/-- ASCII case folding on a code point: sqlite's `LOWER` and the
case-insensitivity of its `LIKE` fold ASCII letters only. -/
def lower_code (c : Char) : Nat :=
  if 65 ≤ c.toNat ∧ c.toNat ≤ 90 then c.toNat + 32 else c.toNat

/-- Model of sqlite `hay LIKE '%pat%'`: substring containment up to ASCII
case, which is how sqlite matches LIKE (the `get_unread_count_by_filter`
variant applies `LOWER` explicitly, with the same effect). -/
def like_ci (hay pat : String) : Bool :=
  decide ((pat.toList.map lower_code).IsInfix (hay.toList.map lower_code))

/-- Source `_get_feed_retention_filter` applied to one joined article row:
`1=1` when no retention window is given, otherwise
`(a.published_date >= cutoff OR s.is_viewed IS NULL OR s.is_viewed = 0)`
with `cutoff = now - retention_days`. -/
def feed_retention_keep (db : DB) (retention_days : Option Int) (now : Int)
    (a : Article) : Bool :=
  match retention_days with
  | none => true
  | some r =>
      decide (now - r ≤ a.published_date) ||
        match statusOf db a.id with
        | none => true
        | some s => !s.is_viewed

/-- Shape of a row produced by the listing queries: the `a.*` columns plus
the joined status columns and the derived `has_tags` flag. -/
structure Row where
  article : Article
  is_saved : Option Bool
  is_viewed : Option Bool
  saved_at : Option Int
  viewed_at : Option Int
  has_tags : Bool
deriving DecidableEq, Repr

/-- The `LEFT JOIN article_status` / `LEFT JOIN (SELECT DISTINCT article_id
FROM article_tags)` row for one article. -/
def joined_row (db : DB) (a : Article) : Row :=
  { article := a,
    is_saved := (statusOf db a.id).map (fun s => s.is_saved),
    is_viewed := (statusOf db a.id).map (fun s => s.is_viewed),
    saved_at := (statusOf db a.id).bind (fun s => s.saved_at),
    viewed_at := (statusOf db a.id).bind (fun s => s.viewed_at),
    has_tags := db.article_tags.any (fun l => l.article_id == a.id) }

/-- Variant used by `get_all_articles`, whose SELECT wraps the status flags
in `COALESCE(s.is_saved, 0)` / `COALESCE(s.is_viewed, 0)`, so those columns
are never NULL. -/
def coalesced_row (db : DB) (a : Article) : Row :=
  { joined_row db a with
      is_saved := some (savedOf db a.id),
      is_viewed := some (viewedOf db a.id) }

/-- Comparison realized by `ORDER BY a.published_date DESC`. -/
def pub_desc (x y : Row) : Prop :=
  y.article.published_date ≤ x.article.published_date

instance : DecidableRel pub_desc :=
  fun x y => inferInstanceAs (Decidable (y.article.published_date ≤ x.article.published_date))

instance : IsTotal Row pub_desc :=
  ⟨fun x y => le_total y.article.published_date x.article.published_date⟩

instance : IsTrans Row pub_desc :=
  ⟨fun _ _ _ h1 h2 => le_trans h2 h1⟩

/-- Sqlite ordering on a nullable integer column (NULL sorts below every
value). -/
def opt_int_le : Option Int → Option Int → Prop
  | none, _ => True
  | some _, none => False
  | some v, some w => v ≤ w

instance : DecidableRel opt_int_le := fun a b =>
  match a, b with
  | none, _ => isTrue trivial
  | some _, none => isFalse (fun h => h)
  | some v, some w => inferInstanceAs (Decidable (v ≤ w))

/-- Comparison realized by `ORDER BY s.saved_at DESC` in `get_saved_articles`. -/
def saved_at_desc (x y : Row) : Prop := opt_int_le y.saved_at x.saved_at

instance : DecidableRel saved_at_desc :=
  fun x y => inferInstanceAs (Decidable (opt_int_le y.saved_at x.saved_at))

instance : IsTotal Row saved_at_desc :=
  ⟨fun x y => by
    cases hx : x.saved_at <;> cases hy : y.saved_at <;>
      simp [saved_at_desc, opt_int_le, hx, hy]
    exact le_total _ _⟩

instance : IsTrans Row saved_at_desc :=
  ⟨fun x y z h1 h2 => by
    simp only [saved_at_desc] at *
    cases hx : x.saved_at <;> cases hy : y.saved_at <;> cases hz : z.saved_at <;>
      simp_all [opt_int_le]
    omega⟩

/-- Source `get_all_articles`: every article passing the retention filter,
with coalesced status flags, ordered by publication date descending. -/
def get_all_articles (db : DB) (feed_retention_days : Option Int) (now : Int) :
    List Row :=
  List.insertionSort pub_desc
    ((db.articles.filter (feed_retention_keep db feed_retention_days now)).map
      (coalesced_row db))

/-- Source `get_articles_by_category`: `EXISTS (SELECT 1 FROM
json_each(a.categories) WHERE json_each.value = ?)` is an exact-element
membership test on the stored category list. -/
def get_articles_by_category (db : DB) (category : String)
    (feed_retention_days : Option Int) (now : Int) : List Row :=
  List.insertionSort pub_desc
    ((db.articles.filter (fun a =>
        a.categories.contains category &&
        feed_retention_keep db feed_retention_days now a)).map (joined_row db))

/-- Source `search_articles`: `a.title LIKE ? OR a.authors LIKE ? OR
a.summary LIKE ?` with the retention filter; the authors column holds the
serialized list. -/
def search_articles (db : DB) (query : String) (feed_retention_days : Option Int)
    (now : Int) : List Row :=
  List.insertionSort pub_desc
    ((db.articles.filter (fun a =>
        (like_ci a.title query || like_ci (json_list a.authors) query ||
         like_ci a.summary query) &&
        feed_retention_keep db feed_retention_days now a)).map (joined_row db))

/-- Source `get_saved_articles`: `INNER JOIN article_status ... WHERE
s.is_saved = 1 ORDER BY s.saved_at DESC`. -/
def get_saved_articles (db : DB) : List Row :=
  List.insertionSort saved_at_desc
    ((db.articles.filter (fun a => savedOf db a.id)).map (joined_row db))

/-- Source `get_unread_articles`: `WHERE s.is_viewed IS NULL OR s.is_viewed = 0
ORDER BY a.published_date DESC`. -/
def get_unread_articles (db : DB) : List Row :=
  List.insertionSort pub_desc
    ((db.articles.filter (fun a => !(viewedOf db a.id))).map (joined_row db))

/-- Source `get_articles_by_tag`: articles linked (via `article_tags` and
`tags`) to the named tag, with `1 as has_tags`, ordered by publication date
descending. -/
def get_articles_by_tag (db : DB) (tag_name : String) : List Row :=
  List.insertionSort pub_desc
    ((db.articles.filter (fun a =>
        db.article_tags.any (fun l => l.article_id == a.id &&
          db.tags.any (fun t => t.id == l.tag_id && t.name == tag_name)))).map
      (fun a => { joined_row db a with has_tags := true }))

/-- Source `get_articles_with_notes`: `WHERE a.notes_file_path IS NOT NULL`. -/
def get_articles_with_notes (db : DB) : List Row :=
  List.insertionSort pub_desc
    ((db.articles.filter (fun a => a.notes_file_path.isSome)).map (joined_row db))

/-- PRIMARY KEY constraint of `articles`: ids are pairwise distinct. -/
abbrev DB.NodupArticleIds (db : DB) : Prop :=
  (db.articles.map (fun a => a.id)).Nodup

/-- Fixture: a fetched record with the given id and publication date. -/
def sample_result (i : String) (pub : Int) : ArxivResult :=
  { short_id := i, entry_id := "https://arxiv.org/abs/" ++ i,
    title := "title " ++ i, authors := ["Author"], summary := "summary",
    categories := ["hep-ph"], published := pub, pdf_url := "pdf" }

/-- Fixture: the article row `add_article` stores for `sample_result i pub`
at time `now`. -/
def sample_article (i : String) (pub : Int) (now : Int) : Article :=
  article_of_result (sample_result i pub) now

/-- Fixture: one ingested article `a1`. -/
def db_one : DB := add_article_store DB.empty (sample_result "a1" 100) 0

/-- Fixture: `a1` tagged `x` (hence auto-saved). -/
def db_tagged : DB := (add_article_tag db_one "a1" "x" 1).fst

/-- Fixture: `a1` tagged `x`, then explicitly unsaved again. -/
def db_tag_unsaved : DB := (mark_article_unsaved db_tagged "a1").fst

/-- Fixture: articles `p1` (published 2) and `p2` (published 1), where `p1`
was saved at time 10 and `p2` later, at time 20. -/
def db_two_saved : DB :=
  (mark_article_saved
    ((mark_article_saved
      (add_article_store
        (add_article_store DB.empty (sample_result "p1" 2) 0)
        (sample_result "p2" 1) 0)
      "p1" 10).fst)
    "p2" 20).fst

/-- Fixture: an article row with no `article_status` row at all (the state a
direct insert or an external writer could leave; ingestion itself always
creates the status row). -/
def db_statusless : DB :=
  { articles := [sample_article "a" 0 0], article_status := [],
    tags := [], article_tags := [], next_tag_id := 1 }

/-- Fixture: two articles `a1`, `a2`, each tagged `x`. -/
def db_two_tags : DB :=
  (add_article_tag
    ((add_article_tag
      (add_article_store
        (add_article_store DB.empty (sample_result "a1" 100) 0)
        (sample_result "a2" 101) 0)
      "a1" "x" 1).fst)
    "a2" "x" 2).fst

/-- Fixture: a dangling status row for `a1` with no article row, left behind
by the unchecked `mark_article_saved` on a never-ingested id. -/
def db_ghost_status : DB := (mark_article_saved DB.empty "a1" 0).fst

theorem add_tag_keeps_status (db : DB) (name : String) (now : Int) :
    ((add_tag db name now).fst).article_status = db.article_status := by
  cases hf : db.tags.find? (fun t => t.name == name) <;> simp [add_tag, hf]

theorem statusOf_congr {db db' : DB} (h : db'.article_status = db.article_status)
    (i : String) : statusOf db' i = statusOf db i := by
  simp [statusOf, h]

theorem statusOf_replace (db : DB) (row : StatusRow) :
    statusOf (replace_status db row) row.article_id = some row := by
  unfold statusOf replace_status
  rw [List.find?_append]
  have h1 : (db.article_status.filter
      (fun s => !(s.article_id == row.article_id))).find?
      (fun s => s.article_id == row.article_id) = none := by
    rw [List.find?_eq_none]
    intro x hx
    have hx2 := (List.mem_filter.mp hx).2
    simp at hx2 ⊢
    exact hx2
  rw [h1]
  simp [List.find?]

theorem statusOf_promote (db : DB) (i : String) (now : Int) :
    statusOf (promote_saved_status db i now) i
      = some { article_id := i, is_saved := true, is_viewed := viewedOf db i,
               saved_at := some now, viewed_at := viewedAtOf db i } :=
  statusOf_replace db _

theorem promote_fields (db : DB) (i : String) (now : Int) :
    savedOf (promote_saved_status db i now) i = true ∧
    viewedOf (promote_saved_status db i now) i = viewedOf db i ∧
    viewedAtOf (promote_saved_status db i now) i = viewedAtOf db i := by
  refine ⟨?_, ?_, ?_⟩
  · rw [show savedOf (promote_saved_status db i now) i
        = ((statusOf (promote_saved_status db i now) i).map
            (fun s => s.is_saved)).getD false from rfl,
      statusOf_promote]
    rfl
  · rw [show viewedOf (promote_saved_status db i now) i
        = ((statusOf (promote_saved_status db i now) i).map
            (fun s => s.is_viewed)).getD false from rfl,
      statusOf_promote]
    rfl
  · rw [show viewedAtOf (promote_saved_status db i now) i
        = (statusOf (promote_saved_status db i now) i).bind
            (fun s => s.viewed_at) from rfl,
      statusOf_promote]
    rfl

/-- Claim C9: when an article id has no `article_status` row,
`mark_article_viewed` is a complete no-op — it creates no row and changes no
table — and the id still counts as unviewed afterwards. -/
theorem mark_viewed_missing_status_noop (db : DB) (article_id : String) (now : Int)
    (h : statusOf db article_id = none) :
    mark_article_viewed db article_id now = db ∧
    viewedOf (mark_article_viewed db article_id now) article_id = false := by
  have hall : ∀ s ∈ db.article_status, (s.article_id == article_id) = false := by
    intro s hs
    have hf := List.find?_eq_none.mp h s hs
    simpa using hf
  have hmap : mark_article_viewed db article_id now = db := by
    unfold mark_article_viewed
    have hmapeq : db.article_status.map (fun s =>
        if s.article_id == article_id && s.is_viewed == false
        then { s with is_viewed := true, viewed_at := some now } else s)
        = db.article_status := by
      have h1 : db.article_status.map (fun s =>
          if s.article_id == article_id && s.is_viewed == false
          then { s with is_viewed := true, viewed_at := some now } else s)
          = db.article_status.map id :=
        List.map_congr_left (fun s hs => by simp [hall s hs])
      rw [h1, List.map_id]
    rw [hmapeq]
  refine ⟨hmap, ?_⟩
  rw [hmap]
  simp [viewedOf, h]

/-- Claim C9 witness: on a store holding an article row but no status row,
marking it viewed returns the store unchanged and the article stays unviewed. -/
theorem mark_viewed_missing_status_noop_witness :
    statusOf db_statusless "a" = none ∧
    (mark_article_viewed db_statusless "a" 7 = db_statusless ∧
     viewedOf (mark_article_viewed db_statusless "a" 7) "a" = false) :=
  ⟨by decide, mark_viewed_missing_status_noop db_statusless "a" 7 (by decide)⟩

/-- Claim C10: when the `(article, tag)` link already exists (the tag row is
present and linked to the article), `add_article_tag` returns false and
leaves the whole store — in particular `article_status` — unchanged. -/
theorem readd_existing_tag_noop (db : DB) (article_id tag_name : String) (now : Int)
    (t : TagRow)
    (ht : db.tags.find? (fun x => x.name == tag_name) = some t)
    (hl : db.article_tags.any
      (fun l => l.article_id == article_id && l.tag_id == t.id) = true) :
    add_article_tag db article_id tag_name now = (db, false) := by
  have h1 : add_tag db tag_name now = (db, t.id) := by simp [add_tag, ht]
  simp [add_article_tag, h1, hl]

/-- Claim C10 witness: re-adding tag `x` to the already-`x`-tagged article
`a1` returns false and leaves the store untouched. -/
theorem readd_existing_tag_noop_witness :
    db_tagged.tags.find? (fun x => x.name == "x")
        = some { id := 1, name := "x", created_at := 1 } ∧
    db_tagged.article_tags.any (fun l => l.article_id == "a1" && l.tag_id == 1) = true ∧
    add_article_tag db_tagged "a1" "x" 9 = (db_tagged, false) :=
  ⟨by decide, by decide,
   readd_existing_tag_noop db_tagged "a1" "x" 9
     { id := 1, name := "x", created_at := 1 } (by decide) (by decide)⟩

/-- Claim C1 counterexample: for the article `a1` whose link to tag `x`
already exists but which was meanwhile unsaved, `add_article_tag` returns
false and leaves `is_saved = false`, refuting "adding a tag ... leaves the
article with `is_saved = true` afterwards" for every article and tag name. -/
theorem promotion_counterexample :
    (add_article_tag db_tag_unsaved "a1" "x" 2).snd = false ∧
    savedOf (add_article_tag db_tag_unsaved "a1" "x" 2).fst "a1" = false := by decide

/-- Claim C1 (amended): whenever `add_article_tag` actually inserts a new
link (returns true), and whenever `set_notes_path` matches an existing
article (returns true), the article ends with `is_saved = true` while its
`is_viewed` flag and `viewed_at` timestamp are exactly what they were before
(an absent status row counting as unviewed); when the link already exists,
`add_article_tag` leaves the status untouched, so `is_saved` may stay false. -/
theorem promotion_invariant (db : DB) (article_id tag_name path : String) (now : Int) :
    ((add_article_tag db article_id tag_name now).snd = true →
      savedOf (add_article_tag db article_id tag_name now).fst article_id = true ∧
      viewedOf (add_article_tag db article_id tag_name now).fst article_id
        = viewedOf db article_id ∧
      viewedAtOf (add_article_tag db article_id tag_name now).fst article_id
        = viewedAtOf db article_id) ∧
    ((set_notes_path db article_id path now).snd = true →
      savedOf (set_notes_path db article_id path now).fst article_id = true ∧
      viewedOf (set_notes_path db article_id path now).fst article_id
        = viewedOf db article_id ∧
      viewedAtOf (set_notes_path db article_id path now).fst article_id
        = viewedAtOf db article_id) := by
  constructor
  · intro h
    cases hc : ((add_tag db tag_name now).fst).article_tags.any
        (fun l => l.article_id == article_id && l.tag_id == (add_tag db tag_name now).snd) with
    | true =>
        exfalso
        simp [add_article_tag, hc] at h
    | false =>
        have hres : (add_article_tag db article_id tag_name now).fst
            = promote_saved_status
                (insert_link (add_tag db tag_name now).fst
                  { article_id := article_id, tag_id := (add_tag db tag_name now).snd,
                    created_at := now })
                article_id now := by
          simp [add_article_tag, hc]
        have hst : (insert_link (add_tag db tag_name now).fst
            { article_id := article_id, tag_id := (add_tag db tag_name now).snd,
              created_at := now }).article_status = db.article_status :=
          add_tag_keeps_status db tag_name now
        have hsc := statusOf_congr hst
        obtain ⟨p1, p2, p3⟩ := promote_fields
          (insert_link (add_tag db tag_name now).fst
            { article_id := article_id, tag_id := (add_tag db tag_name now).snd,
              created_at := now }) article_id now
        rw [hres]
        refine ⟨p1, ?_, ?_⟩
        · rw [p2]; simp [viewedOf, hsc]
        · rw [p3]; simp [viewedAtOf, hsc]
  · intro h
    by_cases hm : db.articles.countP (fun a => a.id == article_id) > 0
    · have hres : (set_notes_path db article_id path now).fst
          = promote_saved_status (set_notes_column db article_id path) article_id now := by
        simp [set_notes_path, hm]
      have hst : (set_notes_column db article_id path).article_status
          = db.article_status := rfl
      have hsc := statusOf_congr hst
      obtain ⟨p1, p2, p3⟩ := promote_fields (set_notes_column db article_id path)
        article_id now
      rw [hres]
      refine ⟨p1, ?_, ?_⟩
      · rw [p2]; simp [viewedOf, hsc]
      · rw [p3]; simp [viewedAtOf, hsc]
    · exfalso
      simp [set_notes_path, hm] at h

/-- Claim C1 witness: tagging the unsaved, unviewed article `a1` with a new
tag `y`, and attaching a notes path, each mark it saved while its viewed
state stays untouched (here: still unviewed). -/
theorem promotion_invariant_witness :
    (add_article_tag db_one "a1" "y" 5).snd = true ∧
    (savedOf (add_article_tag db_one "a1" "y" 5).fst "a1" = true ∧
     viewedOf (add_article_tag db_one "a1" "y" 5).fst "a1" = viewedOf db_one "a1" ∧
     viewedAtOf (add_article_tag db_one "a1" "y" 5).fst "a1" = viewedAtOf db_one "a1") ∧
    (set_notes_path db_one "a1" "notes.md" 5).snd = true ∧
    (savedOf (set_notes_path db_one "a1" "notes.md" 5).fst "a1" = true ∧
     viewedOf (set_notes_path db_one "a1" "notes.md" 5).fst "a1" = viewedOf db_one "a1" ∧
     viewedAtOf (set_notes_path db_one "a1" "notes.md" 5).fst "a1"
       = viewedAtOf db_one "a1") :=
  ⟨by decide,
   (promotion_invariant db_one "a1" "y" "notes.md" 5).1 (by decide),
   by decide,
   (promotion_invariant db_one "a1" "y" "notes.md" 5).2 (by decide)⟩

/-- Claim C3 counterexample: on a store holding a dangling status row for
`a1` (left by the unchecked `mark_article_saved` on a never-ingested id),
ingesting `a1` raises `IntegrityError` — the `with` block rolls back, the
store keeps zero article rows with that id, both calls of a back-to-back
pair raise, and no call returns `added = false`, refuting the claim at this
concrete input. -/
theorem ingest_error_counterexample :
    add_article db_ghost_status (sample_result "a1" 100) 1
      = Except.error "IntegrityError" ∧
    add_article db_ghost_status (sample_result "a1" 100) 2
      = Except.error "IntegrityError" ∧
    (db_ghost_status.articles.filter (fun a => a.id == "a1")).length = 0 := by
  decide

/-- Claim C3 (amended): provided no dangling status row exists for the
record's id (a status row for the id implies the article row exists — the
state every purely-ingestion-first history maintains), ingesting the same
record twice succeeds, leaves exactly one article row with its id, and the
second call returns `added = false` with the store — in particular every
content field — completely unchanged.  When a dangling status row exists for
the id, `add_article` instead raises `IntegrityError` and rolls back,
leaving the store unchanged. -/
theorem ingest_idempotent (db : DB) (r : ArxivResult) (n1 n2 : Int)
    (h : (db.articles.filter (fun a => a.id == r.short_id)).length ≤ 1)
    (hcov : db.article_status.any (fun s => s.article_id == r.short_id) = true →
      article_exists db r.short_id = true) :
    ∃ db1 b1, add_article db r n1 = Except.ok (db1, b1) ∧
      add_article db1 r n2 = Except.ok (db1, false) ∧
      (db1.articles.filter (fun a => a.id == r.short_id)).length = 1 := by
  have hskip : ∀ (d : DB) (n : Int), article_exists d r.short_id = true →
      add_article d r n = Except.ok (d, false) := by
    intro d n hd
    simp [add_article, hd]
  cases he : article_exists db r.short_id with
  | true =>
      refine ⟨db, false, hskip db n1 he, hskip db n2 he, ?_⟩
      obtain ⟨a, ha, hpa⟩ := List.any_eq_true.mp he
      have hmem : a ∈ db.articles.filter (fun a => a.id == r.short_id) :=
        List.mem_filter.mpr ⟨ha, hpa⟩
      have hpos : 0 < (db.articles.filter (fun a => a.id == r.short_id)).length :=
        List.length_pos.mpr (List.ne_nil_of_mem hmem)
      omega
  | false =>
      have hstat : db.article_status.any
          (fun s => s.article_id == r.short_id) = false := by
        cases hs : db.article_status.any (fun s => s.article_id == r.short_id) with
        | false => rfl
        | true =>
            rw [hcov hs] at he
            exact absurd he (by simp)
      have hnone : ∀ a ∈ db.articles, (a.id == r.short_id) = false := by
        intro a ha
        by_contra hcon
        have htrue : db.articles.any (fun a => a.id == r.short_id) = true :=
          List.any_eq_true.mpr ⟨a, ha, by simpa using hcon⟩
        rw [article_exists] at he
        rw [he] at htrue
        exact Bool.false_ne_true htrue
      have hok : add_article db r n1
          = Except.ok (add_article_store db r n1, true) := by
        simp [add_article, add_article_store, he, hstat]
      have hart : (add_article_store db r n1).articles
          = db.articles ++ [article_of_result r n1] := by
        simp [add_article_store, add_article, he, hstat]
      have he2 : article_exists (add_article_store db r n1) r.short_id = true := by
        show ((add_article_store db r n1).articles).any
          (fun a => a.id == r.short_id) = true
        rw [hart]
        simp [article_of_result]
      refine ⟨add_article_store db r n1, true, hok, hskip _ n2 he2, ?_⟩
      rw [hart, List.filter_append]
      have hf1 : db.articles.filter (fun a => a.id == r.short_id) = [] :=
        List.filter_eq_nil_iff.mpr (fun a ha => by simp [hnone a ha])
      rw [hf1]
      simp [article_of_result]

/-- Claim C3 witness: ingesting `a1` into the empty store twice succeeds,
keeps exactly one `a1` row, and the second call is an ok-false no-op. -/
theorem ingest_idempotent_witness :
    (DB.empty.articles.filter (fun a => a.id == "a1")).length ≤ 1 ∧
    (DB.empty.article_status.any (fun s => s.article_id == "a1") = true →
      article_exists DB.empty "a1" = true) ∧
    (∃ db1 b1,
      add_article DB.empty (sample_result "a1" 100) 0 = Except.ok (db1, b1) ∧
      add_article db1 (sample_result "a1" 100) 1 = Except.ok (db1, false) ∧
      (db1.articles.filter (fun a => a.id == "a1")).length = 1) :=
  ⟨by decide, by decide,
   ingest_idempotent DB.empty (sample_result "a1" 100) 0 1
     (by decide) (by decide)⟩

/-- Claim C6: evaluating the store operations at a never-ingested id shows
they do not fail and do create state: `mark_article_saved "ghost"` on the
empty store returns true and inserts a status row, and
`add_article_tag "ghost" "x"` returns true and inserts both a link row and a
status row — the declared FOREIGN KEY constraints are never enabled via
`PRAGMA foreign_keys`, so no NotFound-like condition arises. -/
theorem nonexistent_id_ops :
    (mark_article_saved DB.empty "ghost" 0).snd = true ∧
    (mark_article_saved DB.empty "ghost" 0).fst.article_status
      = [{ article_id := "ghost", is_saved := true, is_viewed := false,
           saved_at := some 0, viewed_at := none }] ∧
    (add_article_tag DB.empty "ghost" "x" 0).snd = true ∧
    (add_article_tag DB.empty "ghost" "x" 0).fst.article_tags
      = [{ article_id := "ghost", tag_id := 1, created_at := 0 }] ∧
    (add_article_tag DB.empty "ghost" "x" 0).fst.article_status
      = [{ article_id := "ghost", is_saved := true, is_viewed := false,
           saved_at := some 0, viewed_at := none }] := by decide

/-- Claim C7 counterexample: in a store where `p1` (published later) was
saved before `p2` (published earlier), the saved listing is ordered by
`saved_at`, not publication date: it is not sorted by publication date
descending. -/
theorem saved_listing_order_counterexample :
    ¬ List.Sorted pub_desc (get_saved_articles db_two_saved) := by decide

/-- Claim C7 (amended): the all / by-category / free-text / by-tag / unread /
with-notes listings are ordered by publication date, most recent first (ties
kept in insertion order by the stable sort); the saved listing, however, is
ordered by `saved_at` descending, not by publication date. -/
theorem listings_sorted (db : DB) (category tag_name q : String) (R : Option Int)
    (now : Int) :
    List.Sorted pub_desc (get_all_articles db R now) ∧
    List.Sorted pub_desc (get_articles_by_category db category R now) ∧
    List.Sorted pub_desc (search_articles db q R now) ∧
    List.Sorted pub_desc (get_articles_by_tag db tag_name) ∧
    List.Sorted pub_desc (get_unread_articles db) ∧
    List.Sorted pub_desc (get_articles_with_notes db) ∧
    List.Sorted saved_at_desc (get_saved_articles db) := by
  refine ⟨?_, ?_, ?_, ?_, ?_, ?_, ?_⟩ <;>
    first
      | exact List.sorted_insertionSort pub_desc _
      | exact List.sorted_insertionSort saved_at_desc _

/-- Claim C8: `cleanup_orphan_tags` keeps exactly the tags with at least one
link and returns the number of removed (linkless) tags; a linked tag is never
removed; `remove_article_tag` never touches the `tags` table; and in the
concrete scenario — two articles tagged `x`, both links removed — the cleanup
removes tag `x`. -/
theorem orphan_tag_cleanup (db : DB) (article_id tag_name : String) :
    (cleanup_orphan_tags db).fst.tags
      = db.tags.filter (fun t => db.article_tags.any (fun l => l.tag_id == t.id)) ∧
    (cleanup_orphan_tags db).snd
      = (db.tags.filter
          (fun t => !(db.article_tags.any (fun l => l.tag_id == t.id)))).length ∧
    (∀ t ∈ db.tags, db.article_tags.any (fun l => l.tag_id == t.id) = true →
      t ∈ (cleanup_orphan_tags db).fst.tags) ∧
    (remove_article_tag db article_id tag_name).fst.tags = db.tags ∧
    (cleanup_orphan_tags
      (remove_article_tag
        (remove_article_tag db_two_tags "a1" "x").fst "a2" "x").fst).fst.tags
      = [] := by
  refine ⟨rfl, ?_, ?_, ?_, by decide⟩
  · have htot := List.length_eq_length_filter_add
      (l := db.tags) (fun t => db.article_tags.any (fun l => l.tag_id == t.id))
    show db.tags.length
        - (db.tags.filter
            (fun t => db.article_tags.any (fun l => l.tag_id == t.id))).length = _
    omega
  · intro t ht hlinked
    exact List.mem_filter.mpr ⟨ht, hlinked⟩
  · cases hf : db.tags.find? (fun t => t.name == tag_name) <;>
      simp [remove_article_tag, hf]

theorem feed_retention_keep_iff (db : DB) (R now : Int) (a : Article) :
    feed_retention_keep db (some R) now a = true ↔
      (now - R ≤ a.published_date ∨ viewedOf db a.id = false) := by
  unfold feed_retention_keep viewedOf
  cases h : statusOf db a.id with
  | none => simp
  | some s => simp

/-- Claim C2: an article is in the retention-filtered `get_all_articles`
listing exactly when it was published inside the window or its (possibly
absent) status row is unviewed; in particular with `R = 0` an old unviewed
article is still returned and the same article viewed is not. -/
theorem feed_retention_visibility (db : DB) (R now : Int) (x : Article)
    (hx : x ∈ db.articles) (hid : db.NodupArticleIds) :
    ((get_all_articles db (some R) now).any
        (fun row => row.article.id == x.id) = true) ↔
      (now - R ≤ x.published_date ∨ viewedOf db x.id = false) := by
  rw [← feed_retention_keep_iff db R now x]
  unfold get_all_articles
  constructor
  · intro hany
    obtain ⟨row, hrow, hp⟩ := List.any_eq_true.mp hany
    have hrow' : row ∈ (db.articles.filter
        (feed_retention_keep db (some R) now)).map (coalesced_row db) :=
      (List.perm_insertionSort pub_desc _).mem_iff.mp hrow
    obtain ⟨a, ha, hae⟩ := List.mem_map.mp hrow'
    have haf := List.mem_filter.mp ha
    have hart : row.article = a := by rw [← hae]; rfl
    rw [hart] at hp
    have hida : a.id = x.id := by simpa using hp
    have hax : a = x := List.inj_on_of_nodup_map hid haf.1 hx hida
    rw [← hax]
    exact haf.2
  · intro hk
    apply List.any_eq_true.mpr
    refine ⟨coalesced_row db x, ?_, ?_⟩
    · exact (List.perm_insertionSort pub_desc _).mem_iff.mpr
        (List.mem_map_of_mem _ (List.mem_filter.mpr ⟨hx, hk⟩))
    · show ((coalesced_row db x).article.id == x.id) = true
      simp [coalesced_row, joined_row]

/-- Claim C2 witness: with retention window 0 at time 1100, the unviewed
article `a1` published at 100 (1000 days before) is still listed. -/
theorem feed_retention_visibility_witness :
    sample_article "a1" 100 0 ∈ db_one.articles ∧
    db_one.NodupArticleIds ∧
    (((get_all_articles db_one (some 0) 1100).any
        (fun row => row.article.id == (sample_article "a1" 100 0).id) = true) ↔
      (1100 - 0 ≤ (sample_article "a1" 100 0).published_date ∨
        viewedOf db_one (sample_article "a1" 100 0).id = false)) :=
  ⟨by decide, by decide,
   feed_retention_visibility db_one 0 1100 (sample_article "a1" 100 0)
     (by decide) (by decide)⟩

end ArTui
